import Mathlib

/-!
# Verification of the `text_adv` engine (`src/text_adv/engine.py`)

A shallow embedding of the core game engine: rooms, items, the inventory,
the game-state singleton, and the built-in command handlers
(`look`, `inventory`, `take`, `drop`, `examine`, `use`, `use_on`, `go`).

Modelling conventions:
* Python object identity is modelled by a numeric `id` field; distinct
  objects carry distinct ids (where a theorem needs global uniqueness it
  carries an explicit hypothesis).
* `adventurelib.Bag` is an unordered container of objects.  It is modelled
  as a `List` in insertion order; `adventurelib.match_item` is modelled
  from the spec ("name-based lookup returns the first match in iteration
  order") and from the repository tests, which mock it as the first item
  whose `name` equals the query.
* Output is a list of events: `print_styled` calls become `Out.msg text
  style`; bare `print` calls become `Out.msg text "plain"`; invoking a
  content-supplied use-callback (an arbitrary Python function, external to
  the engine) is recorded as an `Out.cb` event rather than interpreted.
* Python dictionaries keyed by object identity (`Item.use_callbacks`)
  become association lists keyed by `Option Nat` (the optional target id),
  with lookup of the first matching key and insert-or-overwrite update.
-/

/-- One output event of a command handler: a styled text line
(from `print_styled` / plain `print`), or the invocation of a
use-callback registered on an item (callback bodies are content code,
external to the engine model). -/
inductive Out where
  | msg (text : String) (style : String)
  | cb (item_id : Nat) (cb_id : Nat)
deriving DecidableEq, Repr

/-- An `Item` (engine.py `Item.__init__`): identity, display name,
description, `takeable`/`hidden` flags and the use-callback table keyed by
optional target identity. Callbacks themselves are referenced by numeric id. -/
structure Item where
  id : Nat
  name : String
  description : String
  takeable : Bool
  hidden : Bool
  use_callbacks : List (Option Nat × Nat)
deriving DecidableEq, Repr

/-- Embeds `Item(name, description)`: constructor defaults from `Item.__init__`. -/
def Item.new (iid : Nat) (name : String) (description : String) : Item :=
  { id := iid, name := name, description := description,
    takeable := true, hidden := false, use_callbacks := [] }

/-- Python dict lookup `d[k]` / `k in d` on the callback table: first entry
with the given key. -/
def cbLookup (k : Option Nat) (d : List (Option Nat × Nat)) : Option Nat :=
  (d.find? (fun p => p.1 == k)).map Prod.snd

/-- Python dict update `d[k] = v`: overwrite the existing entry for `k`,
else append a new one. -/
def cbInsert (k : Option Nat) (v : Nat) (d : List (Option Nat × Nat)) : List (Option Nat × Nat) :=
  if d.any (fun p => p.1 == k) then d.map (fun p => if p.1 == k then (k, v) else p)
  else d ++ [(k, v)]

/-- Embeds `Item.add_use_callback(callback, target=None)`. -/
def Item.add_use_callback (it : Item) (cb : Nat) (target : Option Nat) : Item :=
  { it with use_callbacks := cbInsert target cb it.use_callbacks }

/-- Result of `Item.on_use`: either some registered callback is invoked
(and its return value returned), or the item is not usable this way — an
error-styled message is printed and `False` is returned. -/
inductive UseResult where
  | invoked (cb_id : Nat)
  | notUsable (out : Out) (retval : Bool)
deriving DecidableEq, Repr

/-- Embeds `Item.on_use(target=None)` (engine.py lines 307-323): look up the
callback keyed by the exact target, else the one keyed by `None`, else
print `"You’re not sure how to use the {self}."` in the `error` style and
return `False`. -/
def Item.on_use (it : Item) (target : Option Nat) : UseResult :=
  match cbLookup target it.use_callbacks with
  | some cb => .invoked cb
  | none =>
    match cbLookup none it.use_callbacks with
    | some cb => .invoked cb
    | none =>
      .notUsable (.msg ("You\x27re not sure how to use the " ++ it.name ++ ".") "error") false

/-- A Python value stored in `GameState.variables` (tests store strings and
ints). -/
inductive PyVal where
  | str (s : String)
  | int (n : Int)
deriving DecidableEq, Repr

/-- Embeds `GameState` fields as set by `GameState.init`. -/
structure GameState where
  turn_count : Nat
  flags : List (String × Bool)
  vars : List (String × PyVal)
  current_room : Option Nat
  player_name : String
deriving DecidableEq, Repr

/-- Embeds `GameState.init`: the construction defaults. -/
def GameState.initState : GameState :=
  { turn_count := 0, flags := [], vars := [], current_room := none,
    player_name := "Adventurer" }

/-- Embeds `GameState.increment_turn`. -/
def GameState.increment_turn (s : GameState) : GameState :=
  { s with turn_count := s.turn_count + 1 }

/-- Embeds `GameState.set_flag(flag_name, value=True)`. -/
def GameState.set_flag (s : GameState) (flag_name : String) (value : Bool) : GameState :=
  { s with flags := (s.flags.filter (fun p => p.1 != flag_name)) ++ [(flag_name, value)] }

/-- Embeds `GameState.get_flag(flag_name, default=False)`: `self.flags.get(flag_name, default)`. -/
def GameState.get_flag (s : GameState) (flag_name : String) (default : Bool) : Bool :=
  match s.flags.find? (fun p => p.1 == flag_name) with
  | some p => p.2
  | none => default

/-- Embeds `GameState.set_var(var_name, value)`. -/
def GameState.set_var (s : GameState) (var_name : String) (value : PyVal) : GameState :=
  { s with vars := (s.vars.filter (fun p => p.1 != var_name)) ++ [(var_name, value)] }

/-- Embeds `GameState.get_var(var_name, default=None)`: the stored value, else the
default (Python `None` is Lean `none`). -/
def GameState.get_var (s : GameState) (var_name : String) (default : Option PyVal) : Option PyVal :=
  match s.vars.find? (fun p => p.1 == var_name) with
  | some p => some p.2
  | none => default

/-- Embeds `GameState.reset`: calls `init`, restoring every field to its
construction default. -/
def GameState.reset (_ : GameState) : GameState :=
  GameState.initState

/-- A `Room` (engine.py `Room.__init__`): identity, the optional `name`
attribute (only present when content code assigns it), visit bookkeeping,
the two description variants, the directed exits (direction label to room
id, the adventurelib exit map) and the `Bag` of items present. -/
structure Room where
  id : Nat
  name : Option String
  description : String
  first_visit : Bool
  visit_count : Nat
  long_description : String
  short_description : String
  exits : List (String × Nat)
  items : List Item
deriving DecidableEq, Repr

/-- Embeds `Room(description)`: constructor defaults from `Room.__init__`. -/
def Room.new (rid : Nat) (description : String) : Room :=
  { id := rid, name := none, description := description, first_visit := true,
    visit_count := 0, long_description := "", short_description := description,
    exits := [], items := [] }

/-- Embeds `Room.exit(direction)` (adventurelib): the room id the direction leads
to, if an exit is registered. -/
def Room.exit (r : Room) (direction : String) : Option Nat :=
  (r.exits.find? (fun p => p.1 == direction)).map Prod.snd

/-- Embeds `Room.add_item(item)`: `Bag.add` (insertion at the end of the
iteration order). -/
def Room.add_item (r : Room) (item : Item) : Room :=
  { r with items := r.items ++ [item] }

/-- Embeds `Room.add_item_to_content(content)` (engine.py lines 251-261): append
`"\n" + content` to `long_description` only when it is non-empty (Python
truthiness), and to `short_description` unconditionally. -/
def Room.add_item_to_content (r : Room) (content : String) : Room :=
  let r1 := if r.long_description ≠ "" then
    { r with long_description := r.long_description ++ "\n" ++ content } else r
  { r1 with short_description := r1.short_description ++ "\n" ++ content }

/-- Embeds `Room.remove_item(item)` (engine.py lines 263-276): scan the Bag and
remove the first item whose `name` equals `item.name` (nothing happens
when no name matches). -/
def Room.remove_item (r : Room) (item : Item) : Room :=
  { r with items := r.items.eraseP (fun i => i.name == item.name) }

/-- The "=" underline printed beneath a room name. -/
def headerLine (n : String) : String :=
  String.mk (List.replicate n.length (Char.ofNat 61))

/-- The item-listing part of `Room.describe`. -/
def Room.itemEvents (r : Room) : List Out :=
  if r.items = [] then []
  else Out.msg "\nYou see:" "plain" :: r.items.map (fun it => Out.msg ("  " ++ it.name) "item_name")

/-- The exit-listing part of `Room.describe`. -/
def Room.exitEvents (r : Room) : List Out :=
  if r.exits = [] then []
  else [Out.msg ("\nExits: " ++ String.intercalate ", " (r.exits.map Prod.fst)) "plain"]

/-- The name-header part of `Room.describe` (printed only when content
code has assigned a `name` attribute). -/
def Room.nameEvents (r : Room) : List Out :=
  match r.name with
  | some n => [Out.msg n "room_name", Out.msg (headerLine n) "room_name"]
  | none => []

/-- Embeds `Room.describe` (engine.py lines 205-238): bump `visit_count`, print
the name header when present, print the long description and clear
`first_visit` when `first_visit` holds and the long description is
non-empty (Python truthiness), otherwise print the short description;
then list items and exits. Returns the mutated room and the events. -/
def Room.describe (r : Room) : Room × List Out :=
  let r1 : Room := { r with visit_count := r.visit_count + 1 }
  if r1.first_visit ∧ r1.long_description ≠ "" then
    ({ r1 with first_visit := false },
      r1.nameEvents ++ [Out.msg r1.long_description "room_desc"]
        ++ r1.itemEvents ++ r1.exitEvents)
  else
    (r1, r1.nameEvents ++ [Out.msg r1.short_description "room_desc"]
      ++ r1.itemEvents ++ r1.exitEvents)

/-- Modelled from the spec and the repository tests: `adventurelib.match_item`
(the library itself is not part of this repository).  Spec §3: "name-based
lookup returns the first match in iteration order when duplicates exist";
the tests mock it as `next((i for i in items if i.name == name), None)`. -/
def match_item (name : String) (bag : List Item) : Option Item :=
  bag.find? (fun it => it.name == name)

example : (Item.new 1 "key" "A key.").on_use none
    = .notUsable (.msg "You\x27re not sure how to use the key." "error") false := by rfl

example : ((Item.new 1 "key" "k").add_use_callback 7 none).on_use (some 3) = .invoked 7 := by rfl

/-- The whole mutable world a command handler can touch: the heap of rooms
(each Python `Room` object is one entry, identified by its `id`), the
module-level `inventory` Bag, and the `game_state` singleton contents. -/
structure World where
  rooms : List Room
  inventory : List Item
  gs : GameState
deriving DecidableEq, Repr

/-- Dereference a room id in the world. -/
def World.getRoom (w : World) (rid : Nat) : Option Room :=
  w.rooms.find? (fun r => r.id == rid)

/-- Mutate the room object with the given id in place. -/
def World.updateRoom (w : World) (rid : Nat) (f : Room → Room) : World :=
  { w with rooms := w.rooms.map (fun r => if r.id == rid then f r else r) }

/-- Embeds `game_state.current_room` dereferenced. -/
def World.currentRoom (w : World) : Option Room :=
  match w.gs.current_room with
  | some rid => w.getRoom rid
  | none => none

/-- Embeds `look` (engine.py lines 339-342): describe the current room. -/
def look (w : World) : World × List Out :=
  match w.gs.current_room with
  | none => (w, [])
  | some rid =>
    match w.getRoom rid with
    | none => (w, [])
    | some room =>
      let d := room.describe
      (w.updateRoom rid (fun _ => d.1), d.2)

/-- Embeds `show_inventory` (engine.py lines 344-354). -/
def show_inventory (w : World) : World × List Out :=
  if w.inventory = [] then (w, [Out.msg "You\x27re not carrying anything." "hint"])
  else
    (w, Out.msg "You\x27re carrying:" "command"
      :: w.inventory.map (fun it => Out.msg ("  " ++ it.name) "item_name"))

/-- Embeds `Bag.remove(obj)`: remove the object itself (identity) from the Bag. -/
def removeById (iid : Nat) (bag : List Item) : List Item :=
  bag.eraseP (fun it => it.id == iid)

/-- Embeds `take` (engine.py lines 356-377): resolve the name in the current
room’s Bag only; missing → `MissingReferent` error; not takeable →
`NotTakeable` error; else transfer the object from the room’s Bag to the
inventory. -/
def take (w : World) (item : String) : World × List Out :=
  match w.gs.current_room with
  | none => (w, [])
  | some rid =>
    match w.getRoom rid with
    | none => (w, [])
    | some room =>
      match match_item item room.items with
      | none => (w, [Out.msg ("There\x27s no " ++ item ++ " here.") "error"])
      | some obj =>
        if obj.takeable = false then
          (w, [Out.msg ("You can\x27t take the " ++ item ++ ".") "error"])
        else
          let w1 := w.updateRoom rid (fun r => { r with items := removeById obj.id r.items })
          ({ w1 with inventory := w1.inventory ++ [obj] },
            [Out.msg ("You take the " ++ obj.name ++ ".") "success"])

/-- Embeds `drop` (engine.py lines 379-394): resolve the name in the inventory
only; missing → error; else transfer the object from the inventory to the
current room’s Bag. -/
def drop (w : World) (item : String) : World × List Out :=
  match match_item item w.inventory with
  | none => (w, [Out.msg ("You don\x27t have a " ++ item ++ ".") "error"])
  | some obj =>
    match w.gs.current_room with
    | none => (w, [])
    | some rid =>
      let w1 : World := { w with inventory := removeById obj.id w.inventory }
      (w1.updateRoom rid (fun r => { r with items := r.items ++ [obj] }),
        [Out.msg ("You drop the " ++ obj.name ++ ".") "success"])

/-- Embeds `examine` (engine.py lines 396-411): resolve the name in the current
room’s Bag, then in the inventory; missing → error; else print the
object’s description. -/
def examine (w : World) (item : String) : World × List Out :=
  match w.gs.current_room with
  | none => (w, [])
  | some rid =>
    match w.getRoom rid with
    | none => (w, [])
    | some room =>
      match (match_item item room.items).orElse (fun _ => match_item item w.inventory) with
      | none => (w, [Out.msg ("You don\x27t see a " ++ item ++ " here.") "error"])
      | some obj => (w, [Out.msg obj.description "item_desc"])

/-- The events produced by an `obj.on_use(...)` call inside a handler (the
return value is discarded by both callers). -/
def useEvents (obj : Item) (target : Option Nat) : List Out :=
  match obj.on_use target with
  | .invoked cb => [Out.cb obj.id cb]
  | .notUsable o _ => [o]

/-- Embeds `use` (engine.py lines 413-426): resolve the name in the inventory
only; missing → error; else `obj.on_use()`. -/
def use (w : World) (item : String) : World × List Out :=
  match match_item item w.inventory with
  | none => (w, [Out.msg ("You don\x27t have a " ++ item ++ ".") "error"])
  | some obj => (w, useEvents obj none)

/-- Embeds `use_on` (engine.py lines 428-450): resolve the item in the inventory
only; the target in the current room’s Bag, then the inventory; missing
target → error; else `item_obj.on_use(target_obj)`. -/
def use_on (w : World) (item : String) (target : String) : World × List Out :=
  match match_item item w.inventory with
  | none => (w, [Out.msg ("You don\x27t have a " ++ item ++ ".") "error"])
  | some item_obj =>
    match w.gs.current_room with
    | none => (w, [])
    | some rid =>
      match w.getRoom rid with
      | none => (w, [])
      | some room =>
        match (match_item target room.items).orElse (fun _ => match_item target w.inventory) with
        | some target_obj => (w, useEvents item_obj (some target_obj.id))
        | none => (w, [Out.msg ("You don\x27t see a " ++ target ++ " here.") "error"])

/-- Embeds `go` (engine.py lines 465-478): look up the exit; on success set
`current_room` to the destination, describe it (mutating its visit
bookkeeping) and increment the turn counter; on failure print the error
and change nothing. -/
def go (w : World) (direction : String) : World × List Out :=
  match w.currentRoom with
  | none => (w, [])
  | some room =>
    match room.exit direction with
    | some destId =>
      match w.getRoom destId with
      | none => (w, [])
      | some dest =>
        let d := dest.describe
        let w1 := { w with gs := { w.gs with current_room := some destId } }
        let w2 := (w1.updateRoom destId (fun _ => d.1))
        ({ w2 with gs := w2.gs.increment_turn }, d.2)
    | none => (w, [Out.msg ("You can\x27t go " ++ direction ++ ".") "error"])

/-! ## The `GameState` singleton allocator -/

/-- Embeds `GameState._instance` plus an allocation counter: the process-level
state consulted by `GameState.__new__` (engine.py lines 100-107). A
"reference" is an allocation number; distinct allocations get distinct
references. -/
structure PyHeap where
  gs_instance : Option Nat
  next_ref : Nat
deriving DecidableEq, Repr

/-- Embeds `GameState.__new__`: return the stored instance when one exists, else
allocate a fresh object, store it in `_instance` and return it. -/
def GameState.new (h : PyHeap) : Nat × PyHeap :=
  match h.gs_instance with
  | some r => (r, h)
  | none => (h.next_ref, { gs_instance := some h.next_ref, next_ref := h.next_ref + 1 })

/-- The references returned by `n` successive `GameState()` constructions
starting from heap `h` (at import time the module-level
`game_state = GameState()` is the first such construction). -/
def GameState.newChain (h : PyHeap) : Nat → List Nat
  | 0 => []
  | n + 1 => (GameState.new h).1 :: GameState.newChain (GameState.new h).2 n

theorem gsNew_stores (h : PyHeap) :
    (GameState.new h).2.gs_instance = some (GameState.new h).1 := by
  cases hi : h.gs_instance <;> simp [GameState.new, hi]

theorem gsNew_of_stored {h : PyHeap} {r : Nat} (hi : h.gs_instance = some r) :
    GameState.new h = (r, h) := by
  simp [GameState.new, hi]

theorem gsNewChain_of_stored {r : Nat} :
    ∀ (n : Nat) (h : PyHeap), h.gs_instance = some r →
      GameState.newChain h n = List.replicate n r := by
  intro n
  induction n with
  | zero => intro h _; rfl
  | succ m ih =>
    intro h hi
    rw [GameState.newChain, gsNew_of_stored hi, List.replicate_succ]
    exact congrArg _ (ih h hi)

/-! ## Test fixtures -/

/-- A test item with a targeted callback (target id 5 → callback 10) and
an untargeted one (callback 20). -/
def keyWithCallbacks : Item :=
  { Item.new 1 "key" "A small key." with use_callbacks := [(some 5, 10), (none, 20)] }

/-- A game state after a few mutations, for exercising `reset`. -/
def mutatedGS : GameState :=
  ((GameState.initState.set_flag "seen_intro" true).set_var "score" (.int 3)).increment_turn

/-! ## Claims -/

/-- C1: for every `Item` and optional target, `Item.on_use(target)`
invokes the callback keyed by the exact target identity when such an
entry exists; otherwise, when an entry keyed by "no target" exists, it
invokes that one regardless of the supplied target; otherwise it reports
`NotUsable`: it prints the error-styled message and returns `False`,
invoking no callback. -/
theorem on_use_resolution_order (it : Item) (target : Option Nat) :
    (∀ cb, cbLookup target it.use_callbacks = some cb →
      it.on_use target = .invoked cb) ∧
    (∀ cb, cbLookup target it.use_callbacks = none →
      cbLookup none it.use_callbacks = some cb → it.on_use target = .invoked cb) ∧
    (cbLookup target it.use_callbacks = none →
      cbLookup none it.use_callbacks = none →
      it.on_use target = .notUsable
        (.msg ("You\x27re not sure how to use the " ++ it.name ++ ".") "error") false) := by
  refine ⟨fun cb h => ?_, fun cb h h2 => ?_, fun h h2 => ?_⟩ <;>
    simp [Item.on_use, h]
  · simp [h2]
  · simp [h2]

theorem on_use_resolution_order_witness :
    keyWithCallbacks.on_use (some 5) = .invoked 10 ∧
    keyWithCallbacks.on_use (some 9) = .invoked 20 ∧
    (Item.new 2 "rock" "A rock.").on_use (some 5) = .notUsable
      (.msg ("You\x27re not sure how to use the " ++ (Item.new 2 "rock" "A rock.").name ++ ".")
        "error") false := by
  refine ⟨?_, ?_, ?_⟩
  · exact (on_use_resolution_order keyWithCallbacks (some 5)).1 10 (by decide)
  · exact (on_use_resolution_order keyWithCallbacks (some 9)).2.1 20 (by decide) (by decide)
  · exact (on_use_resolution_order (Item.new 2 "rock" "A rock.") (some 5)).2.2
      (by decide) (by decide)

/-- C8: `GameState.reset` restores every field to its construction default
(turn 0, empty flags, empty variables, no current room, player name
"Adventurer") regardless of prior mutations; `get_flag` of an unset flag
returns false and `get_var` of an unset variable returns the absent
default. -/
theorem reset_restores_defaults (s s2 : GameState) (flag v : String) :
    s.reset = GameState.initState ∧
    s.reset.turn_count = 0 ∧ s.reset.flags = [] ∧ s.reset.vars = [] ∧
    s.reset.current_room = none ∧ s.reset.player_name = "Adventurer" ∧
    (s2.flags.find? (fun p => p.1 == flag) = none → s2.get_flag flag false = false) ∧
    (s2.vars.find? (fun p => p.1 == v) = none → s2.get_var v none = none) := by
  refine ⟨rfl, rfl, rfl, rfl, rfl, rfl, fun h => ?_, fun h => ?_⟩
  · simp [GameState.get_flag, h]
  · simp [GameState.get_var, h]

theorem reset_restores_defaults_witness :
    (mutatedGS.flags.find? (fun p => p.1 == "other") = none ∧
      mutatedGS.vars.find? (fun p => p.1 == "missing") = none) ∧
    mutatedGS.reset = GameState.initState ∧
    mutatedGS.get_flag "other" false = false ∧
    mutatedGS.get_var "missing" none = none := by
  refine ⟨⟨by decide, by decide⟩, ?_, ?_, ?_⟩
  · exact (reset_restores_defaults mutatedGS mutatedGS "other" "missing").1
  · exact (reset_restores_defaults mutatedGS mutatedGS "other" "missing").2.2.2.2.2.2.1
      (by decide)
  · exact (reset_restores_defaults mutatedGS mutatedGS "other" "missing").2.2.2.2.2.2.2
      (by decide)

/-- C10: `GameState` is a process-wide singleton: within one process run,
every `GameState()` construction returns the same reference as the first
one (and hence as every other), so all handlers and callbacks share one
state object. -/
theorem gamestate_singleton (h : PyHeap) (n : Nat) (r₁ r₂ : Nat) :
    (r₁ ∈ GameState.newChain h n → r₁ = (GameState.new h).1) ∧
    (r₁ ∈ GameState.newChain h n → r₂ ∈ GameState.newChain h n → r₁ = r₂) := by
  have key : ∀ x, x ∈ GameState.newChain h n → x = (GameState.new h).1 := by
    intro x hx
    cases n with
    | zero => simp [GameState.newChain] at hx
    | succ m =>
      rw [GameState.newChain, gsNewChain_of_stored m (GameState.new h).2 (gsNew_stores h)]
        at hx
      rcases List.mem_cons.mp hx with h1 | h1
      · exact h1
      · exact List.eq_of_mem_replicate h1
  exact ⟨key r₁, fun h1 h2 => (key r₁ h1).trans (key r₂ h2).symm⟩

theorem gamestate_singleton_witness :
    (5 ∈ GameState.newChain ⟨none, 5⟩ 3 ∧ 5 ∈ GameState.newChain ⟨none, 5⟩ 3) ∧
    (5 : Nat) = (GameState.new ⟨none, 5⟩).1 := by
  refine ⟨⟨by decide, by decide⟩, ?_⟩
  exact (gamestate_singleton ⟨none, 5⟩ 3 5 5).1 (by decide)

/-! ## Description rendering (C4, C9) -/

/-- Whether an event is the rendering of a room description
(a `room_desc`-styled line). -/
def isRoomDesc : Out → Bool
  | .msg _ style => style == "room_desc"
  | .cb _ _ => false

/-- The rendered room description lines of an output sequence. -/
def descLines (evts : List Out) : List Out :=
  evts.filter isRoomDesc

theorem descLines_append (a b : List Out) :
    descLines (a ++ b) = descLines a ++ descLines b :=
  List.filter_append a b

theorem descLines_cons_not (o : Out) (t : List Out) (h : isRoomDesc o = false) :
    descLines (o :: t) = descLines t := by
  simp [descLines, List.filter_cons, h]

theorem descLines_map_items (l : List Item) :
    descLines (l.map (fun it => Out.msg ("  " ++ it.name) "item_name")) = [] := by
  induction l with
  | nil => rfl
  | cons a t ih =>
    rw [List.map_cons, descLines_cons_not (Out.msg ("  " ++ a.name) "item_name") _ rfl]
    exact ih

theorem descLines_nameEvents (r : Room) : descLines r.nameEvents = [] := by
  unfold Room.nameEvents
  cases r.name <;> rfl

theorem descLines_itemEvents (r : Room) : descLines r.itemEvents = [] := by
  unfold Room.itemEvents
  split
  · rfl
  · rw [descLines_cons_not (Out.msg "\nYou see:" "plain") _ rfl, descLines_map_items]

theorem descLines_exitEvents (r : Room) : descLines r.exitEvents = [] := by
  unfold Room.exitEvents
  split <;> rfl

/-- C4 (amended): `first_visit` only transitions on a `describe` call at
which the long description is non-empty.  On a first-visit render with a
non-empty long description the long description is rendered and
`first_visit` becomes false; on a first-visit render with an empty long
description the short description is rendered and `first_visit` stays
true; once `first_visit` is false it stays false and only the short
description is rendered. -/
theorem describe_first_visit_transition (r : Room) :
    (r.first_visit = true → r.long_description ≠ "" →
      r.describe.1.first_visit = false ∧
        descLines r.describe.2 = [Out.msg r.long_description "room_desc"]) ∧
    (r.first_visit = true → r.long_description = "" →
      r.describe.1.first_visit = true ∧
        descLines r.describe.2 = [Out.msg r.short_description "room_desc"]) ∧
    (r.first_visit = false →
      r.describe.1.first_visit = false ∧
        descLines r.describe.2 = [Out.msg r.short_description "room_desc"]) := by
  refine ⟨fun h1 h2 => ?_, fun h1 h2 => ?_, fun h1 => ?_⟩
  · unfold Room.describe
    rw [if_pos ⟨h1, h2⟩]
    refine ⟨rfl, ?_⟩
    rw [descLines_append, descLines_append, descLines_append, descLines_nameEvents,
      descLines_itemEvents, descLines_exitEvents]
    rfl
  · unfold Room.describe
    rw [if_neg (by simp [h2])]
    refine ⟨h1, ?_⟩
    rw [descLines_append, descLines_append, descLines_append, descLines_nameEvents,
      descLines_itemEvents, descLines_exitEvents]
    rfl
  · unfold Room.describe
    rw [if_neg (by simp [h1])]
    refine ⟨h1, ?_⟩
    rw [descLines_append, descLines_append, descLines_append, descLines_nameEvents,
      descLines_itemEvents, descLines_exitEvents]
    rfl

/-- The room used in the C4 witness: it has a non-empty long description. -/
def parlorRoom : Room :=
  { Room.new 7 "A plain room." with long_description := "A long, florid description." }

theorem describe_first_visit_transition_witness :
    parlorRoom.first_visit = true ∧ parlorRoom.long_description ≠ "" ∧
    parlorRoom.describe.1.first_visit = false ∧
    descLines parlorRoom.describe.2
      = [Out.msg parlorRoom.long_description "room_desc"] := by
  refine ⟨rfl, by decide, ?_⟩
  exact (describe_first_visit_transition parlorRoom).1 rfl (by decide)

/-- C4 counterexample: a room constructed plainly with `Room(description)`
has an empty `long_description`; its very first `describe` leaves
`first_visit` true — no true→false transition on the first render — and
renders the short description rather than the long one. -/
theorem describe_first_visit_counterexample :
    (Room.new 1 "A bare room.").first_visit = true ∧
    (Room.new 1 "A bare room.").describe.1.first_visit = true ∧
    descLines (Room.new 1 "A bare room.").describe.2
      = [Out.msg "A bare room." "room_desc"] := by
  refine ⟨rfl, rfl, rfl⟩

/-- C9 (amended): `add_item_to_content` appends a newline plus the text to
the short description unconditionally, but to the long description only
when the long description is non-empty; an empty long description is left
empty. -/
theorem add_content_appends (r : Room) (content : String) :
    (r.add_item_to_content content).short_description
        = r.short_description ++ "\n" ++ content ∧
    (r.long_description ≠ "" →
      (r.add_item_to_content content).long_description
        = r.long_description ++ "\n" ++ content) ∧
    (r.long_description = "" →
      (r.add_item_to_content content).long_description = "") := by
  unfold Room.add_item_to_content
  by_cases h : r.long_description = "" <;> simp [h]

theorem add_content_appends_witness :
    (parlorRoom.add_item_to_content "A door has appeared.").long_description
      = parlorRoom.long_description ++ "\n" ++ "A door has appeared." ∧
    ((Room.new 8 "Bare.").add_item_to_content "A door has appeared.").long_description
      = "" := by
  refine ⟨?_, ?_⟩
  · exact (add_content_appends parlorRoom "A door has appeared.").2.1 (by decide)
  · exact (add_content_appends (Room.new 8 "Bare.") "A door has appeared.").2.2 rfl

/-- C9 counterexample: on a room whose long description is empty (the
constructor default), `addContent` leaves the long description empty, so
the long description does not end with the supplied (non-empty) text. -/
theorem add_content_counterexample :
    ((Room.new 2 "Bare.").add_item_to_content "x").long_description = "" ∧
    (((Room.new 2 "Bare.").add_item_to_content "x").long_description.endsWith "x") = false ∧
    "x" ≠ "" := by
  refine ⟨rfl, rfl, by decide⟩

/-! ## `Room.remove_item` (C5) -/

/-- C5 (amended): `Room.remove_item(item)` removes the first item of the
room’s Bag whose display name equals `item.name` — a name-based, not
identity-based, removal — and is a no-op exactly when no item in the Bag
bears that name (in particular it raises no error then). -/
theorem remove_item_by_name (r : Room) (item : Item) :
    ((∀ j ∈ r.items, j.name ≠ item.name) → r.remove_item item = r) ∧
    (∀ pre j post, r.items = pre ++ j :: post →
      (∀ k ∈ pre, k.name ≠ item.name) → j.name = item.name →
      r.remove_item item = { r with items := pre ++ post }) := by
  constructor
  · intro h
    unfold Room.remove_item
    rw [List.eraseP_of_forall_not (by simpa using h)]
  · intro pre j post hsplit hpre hj
    unfold Room.remove_item
    rw [hsplit, List.eraseP_append_right _ (by simpa using hpre),
      List.eraseP_cons_of_pos (by simpa using hj)]

/-- The room used in the C5 witness and counterexample: it contains a
single key object (id 1). -/
def vaultRoom : Room :=
  { Room.new 3 "Vault." with items := [Item.new 1 "key" "A shiny key."] }

/-- A distinct key object (id 2) sharing the display name "key". -/
def impostorKey : Item := Item.new 2 "key" "A rusty key."

theorem remove_item_by_name_witness :
    (∀ j ∈ vaultRoom.items, j.name ≠ (Item.new 9 "lamp" "A lamp.").name) ∧
    vaultRoom.remove_item (Item.new 9 "lamp" "A lamp.") = vaultRoom := by
  refine ⟨by decide, ?_⟩
  exact (remove_item_by_name vaultRoom (Item.new 9 "lamp" "A lamp.")).1 (by decide)

/-- C5 counterexample: removing an item that is absent from the Bag (the
rusty key, id 2) is not a no-op — it removes the distinct shiny key
(id 1) that merely shares the display name "key". -/
theorem remove_item_counterexample :
    impostorKey ∉ vaultRoom.items ∧
    (vaultRoom.remove_item impostorKey).items = [] := by
  refine ⟨by decide, rfl⟩

/-! ## Movement and the turn counter (C3), `take` on untakeable items (C6) -/

/-- C3: a successful `go` (existing exit) increments `turn_count` by
exactly one and sets `current_room` to the destination; `go` in a
direction with no exit leaves the world unchanged and emits the error
output; every other built-in verb — `take`, `drop`, `examine`, `use`,
`use_on`, `look`, `inventory` — leaves `turn_count` unchanged. -/
theorem movement_only_advances_turns :
    (∀ (w : World) (rid : Nat) (room : Room) (direction : String) (destId : Nat) (dest : Room),
      w.gs.current_room = some rid → w.getRoom rid = some room →
      room.exit direction = some destId → w.getRoom destId = some dest →
      (go w direction).1.gs.turn_count = w.gs.turn_count + 1 ∧
      (go w direction).1.gs.current_room = some destId) ∧
    (∀ (w : World) (rid : Nat) (room : Room) (direction : String),
      w.gs.current_room = some rid → w.getRoom rid = some room →
      room.exit direction = none →
      go w direction = (w, [Out.msg ("You can\x27t go " ++ direction ++ ".") "error"])) ∧
    (∀ (w : World) (item : String), (take w item).1.gs.turn_count = w.gs.turn_count) ∧
    (∀ (w : World) (item : String), (drop w item).1.gs.turn_count = w.gs.turn_count) ∧
    (∀ (w : World) (item : String), (examine w item).1.gs.turn_count = w.gs.turn_count) ∧
    (∀ (w : World) (item : String), (use w item).1.gs.turn_count = w.gs.turn_count) ∧
    (∀ (w : World) (item target : String),
      (use_on w item target).1.gs.turn_count = w.gs.turn_count) ∧
    (∀ (w : World), (look w).1.gs.turn_count = w.gs.turn_count) ∧
    (∀ (w : World), (show_inventory w).1.gs.turn_count = w.gs.turn_count) := by
  refine ⟨?_, ?_, ?_, ?_, ?_, ?_, ?_, ?_, ?_⟩
  · intro w rid room direction destId dest h1 h2 h3 h4
    simp [go, World.currentRoom, World.updateRoom, GameState.increment_turn, h1, h2, h3, h4]
  · intro w rid room direction h1 h2 h3
    simp [go, World.currentRoom, h1, h2, h3]
  · intro w item
    unfold take
    repeat' split
    all_goals rfl
  · intro w item
    unfold drop
    repeat' split
    all_goals rfl
  · intro w item
    unfold examine
    repeat' split
    all_goals rfl
  · intro w item
    unfold use
    repeat' split
    all_goals rfl
  · intro w item target
    unfold use_on
    repeat' split
    all_goals rfl
  · intro w
    unfold look
    repeat' split
    all_goals rfl
  · intro w
    unfold show_inventory
    split <;> rfl

/-- A two-room fixture: the hall (id 0) has a north exit to the cave
(id 1) and no other exit. -/
def hallRoom : Room := { Room.new 0 "Hall." with exits := [("north", 1)] }

/-- The destination room of the fixture. -/
def caveRoom : Room := Room.new 1 "Cave."

/-- Fixture world for the movement claims: player in the hall. -/
def hallWorld : World :=
  { rooms := [hallRoom, caveRoom], inventory := [],
    gs := { GameState.initState with current_room := some 0 } }

theorem movement_only_advances_turns_witness :
    ((go hallWorld "north").1.gs.turn_count = hallWorld.gs.turn_count + 1 ∧
      (go hallWorld "north").1.gs.current_room = some 1) ∧
    go hallWorld "east"
      = (hallWorld, [Out.msg ("You can\x27t go " ++ "east" ++ ".") "error"]) := by
  refine ⟨?_, ?_⟩
  · exact movement_only_advances_turns.1 hallWorld 0 hallRoom "north" 1 caveRoom
      rfl (by decide) (by decide) (by decide)
  · exact movement_only_advances_turns.2.1 hallWorld 0 hallRoom "east"
      rfl (by decide) (by decide)

/-- C6: when the name resolves in the current room to an item with
`takeable = False`, `take` emits `("You can’t take the {item}.", "error")`
and changes no state at all: the room’s Bag and the inventory are left as
they were. -/
theorem take_not_takeable (w : World) (item : String) (rid : Nat) (room : Room) (obj : Item)
    (h1 : w.gs.current_room = some rid) (h2 : w.getRoom rid = some room)
    (h3 : match_item item room.items = some obj) (h4 : obj.takeable = false) :
    take w item = (w, [Out.msg ("You can\x27t take the " ++ item ++ ".") "error"]) := by
  simp [take, h1, h2, h3, h4]

/-- A door object that is not takeable. -/
def doorItem : Item := { Item.new 3 "door" "A heavy door." with takeable := false }

/-- Fixture world for C6: the porch (id 4) contains the untakeable door. -/
def porchWorld : World :=
  { rooms := [{ Room.new 4 "Porch." with items := [doorItem] }], inventory := [],
    gs := { GameState.initState with current_room := some 4 } }

theorem take_not_takeable_witness :
    take porchWorld "door"
      = (porchWorld, [Out.msg ("You can\x27t take the " ++ "door" ++ ".") "error"]) :=
  take_not_takeable porchWorld "door" 4 { Room.new 4 "Porch." with items := [doorItem] }
    doorItem rfl (by decide) (by decide) rfl

/-! ## Missing-referent resolution scopes (C7) -/

/-- Modelled from the spec (§7): the "current scope — room + inventory"
that the spec asserts every name-resolving handler searches. -/
def specScope (w : World) : List Item :=
  (match w.currentRoom with
   | some room => room.items
   | none => []) ++ w.inventory

/-- C7 (amended): each name-resolving handler searches its own scope, not
uniformly room + inventory: `take` resolves in the current room’s Bag
only; `drop` and `use` in the inventory only; `examine` in the room’s Bag
and then the inventory; `use_on` resolves its item in the inventory only
and its target in the room’s Bag and then the inventory.  Each reports
its "not found"-style error — with no mutation and no callback invoked —
exactly when its own scope lacks the name, and otherwise proceeds with
the resolved object. -/
theorem missing_referent_scopes :
    (∀ (w : World) (item : String) (rid : Nat) (room : Room),
      w.gs.current_room = some rid → w.getRoom rid = some room →
      (match_item item room.items = none →
        take w item = (w, [Out.msg ("There\x27s no " ++ item ++ " here.") "error"])) ∧
      (∀ obj, match_item item room.items = some obj → obj.takeable = false →
        take w item = (w, [Out.msg ("You can\x27t take the " ++ item ++ ".") "error"])) ∧
      (∀ obj, match_item item room.items = some obj → obj.takeable = true →
        take w item = ({ w.updateRoom rid
              (fun r => { r with items := removeById obj.id r.items })
            with inventory := w.inventory ++ [obj] },
          [Out.msg ("You take the " ++ obj.name ++ ".") "success"]))) ∧
    (∀ (w : World) (item : String),
      match_item item w.inventory = none →
      drop w item = (w, [Out.msg ("You don\x27t have a " ++ item ++ ".") "error"])) ∧
    (∀ (w : World) (item : String) (rid : Nat) (obj : Item),
      match_item item w.inventory = some obj → w.gs.current_room = some rid →
      drop w item = (({ w with inventory := removeById obj.id w.inventory }).updateRoom rid
          (fun r => { r with items := r.items ++ [obj] }),
        [Out.msg ("You drop the " ++ obj.name ++ ".") "success"])) ∧
    (∀ (w : World) (item : String) (rid : Nat) (room : Room),
      w.gs.current_room = some rid → w.getRoom rid = some room →
      (match_item item room.items = none → match_item item w.inventory = none →
        examine w item = (w, [Out.msg ("You don\x27t see a " ++ item ++ " here.") "error"])) ∧
      (∀ obj, (match_item item room.items).orElse (fun _ => match_item item w.inventory)
          = some obj →
        examine w item = (w, [Out.msg obj.description "item_desc"]))) ∧
    (∀ (w : World) (item : String),
      (match_item item w.inventory = none →
        use w item = (w, [Out.msg ("You don\x27t have a " ++ item ++ ".") "error"])) ∧
      (∀ obj, match_item item w.inventory = some obj →
        use w item = (w, useEvents obj none))) ∧
    (∀ (w : World) (item target : String) (rid : Nat) (room : Room),
      w.gs.current_room = some rid → w.getRoom rid = some room →
      (match_item item w.inventory = none →
        use_on w item target
          = (w, [Out.msg ("You don\x27t have a " ++ item ++ ".") "error"])) ∧
      (∀ item_obj, match_item item w.inventory = some item_obj →
        match_item target room.items = none → match_item target w.inventory = none →
        use_on w item target
          = (w, [Out.msg ("You don\x27t see a " ++ target ++ " here.") "error"])) ∧
      (∀ item_obj target_obj, match_item item w.inventory = some item_obj →
        (match_item target room.items).orElse (fun _ => match_item target w.inventory)
          = some target_obj →
        use_on w item target = (w, useEvents item_obj (some target_obj.id)))) := by
  refine ⟨?_, ?_, ?_, ?_, ?_, ?_⟩
  · intro w item rid room h1 h2
    refine ⟨fun hm => ?_, fun obj hm ht => ?_, fun obj hm ht => ?_⟩
    · simp [take, h1, h2, hm]
    · simp [take, h1, h2, hm, ht]
    · simp [take, h1, h2, hm, ht, World.updateRoom]
  · intro w item hm
    simp [drop, hm]
  · intro w item rid obj hm h1
    simp [drop, hm, h1]
  · intro w item rid room h1 h2
    constructor
    · intro hm1 hm2
      simp [examine, h1, h2, hm1, hm2, Option.orElse]
    · intro obj hor
      simp [examine, h1, h2, hor]
  · intro w item
    constructor
    · intro hm
      simp [use, hm]
    · intro obj hm
      simp [use, hm]
  · intro w item target rid room h1 h2
    refine ⟨fun hm => ?_, fun item_obj hm hm1 hm2 => ?_, fun item_obj target_obj hm hor => ?_⟩
    · simp [use_on, hm]
    · simp [use_on, h1, h2, hm, hm1, hm2, Option.orElse]
    · simp [use_on, h1, h2, hm, hor]

/-- A brass key object used in the C7 fixtures. -/
def brassKey : Item := Item.new 5 "key" "A brass key."

/-- C7 fixture: the key is in the inventory and the current room is empty. -/
def lobbyWorld : World :=
  { rooms := [Room.new 0 "Lobby."], inventory := [brassKey],
    gs := { GameState.initState with current_room := some 0 } }

/-- C7 fixture: the key lies in the current room and the inventory is empty. -/
def yardWorld : World :=
  { rooms := [{ Room.new 0 "Yard." with items := [brassKey] }], inventory := [],
    gs := { GameState.initState with current_room := some 0 } }

/-- C7 counterexample: the named item IS in the spec’s "current scope"
(room + inventory), yet the handler reports its not-found error: `take`
misses an item that is in the inventory, and `use` misses an item that is
in the room.  So "reports MissingReferent exactly when the name is not in
room + inventory" is false for the built-in handlers. -/
theorem missing_referent_scope_counterexample :
    match_item "key" (specScope lobbyWorld) = some brassKey ∧
    take lobbyWorld "key"
      = (lobbyWorld, [Out.msg ("There\x27s no " ++ "key" ++ " here.") "error"]) ∧
    match_item "key" (specScope yardWorld) = some brassKey ∧
    use yardWorld "key"
      = (yardWorld, [Out.msg ("You don\x27t have a " ++ "key" ++ ".") "error"]) := by
  refine ⟨by decide, by decide, by decide, by decide⟩

theorem missing_referent_scopes_witness :
    take lobbyWorld "key"
      = (lobbyWorld, [Out.msg ("There\x27s no " ++ "key" ++ " here.") "error"]) ∧
    use lobbyWorld "key" = (lobbyWorld, useEvents brassKey none) ∧
    examine lobbyWorld "key" = (lobbyWorld, [Out.msg brassKey.description "item_desc"]) := by
  refine ⟨?_, ?_, ?_⟩
  · exact ((missing_referent_scopes.1 lobbyWorld "key" 0 (Room.new 0 "Lobby.")
      rfl (by decide)).1 (by decide))
  · exact (missing_referent_scopes.2.2.2.2.1 lobbyWorld "key").2 brassKey (by decide)
  · exact ((missing_referent_scopes.2.2.2.1 lobbyWorld "key" 0 (Room.new 0 "Lobby.")
      rfl (by decide)).2 brassKey (by decide))

/-! ## Ownership: the take/drop round trip (C2) -/

/-- The number of occurrences of the object with identity `iid` in a Bag. -/
def countId (iid : Nat) (items : List Item) : Nat :=
  items.countP (fun it => it.id == iid)

/-- In how many places the object with identity `iid` is held, over all
Bags of the world (every room’s Bag plus the inventory); the spec’s
ownership invariant is `bagCount = 1`. -/
def World.bagCount (w : World) (iid : Nat) : Nat :=
  (w.rooms.map (fun r => countId iid r.items)).sum + countId iid w.inventory

theorem find?_map_id_pres (rooms : List Room) (rid : Nat) (g : Room → Room)
    (hg : ∀ r, (g r).id = r.id) :
    (rooms.map g).find? (fun r => r.id == rid)
      = (rooms.find? (fun r => r.id == rid)).map g := by
  have hpg : ((fun r : Room => r.id == rid) ∘ g) = (fun r : Room => r.id == rid) := by
    funext r
    simp [Function.comp, hg r]
  rw [List.find?_map, hpg]

theorem countP_map_id_pres (rooms : List Room) (rid : Nat) (g : Room → Room)
    (hg : ∀ r, (g r).id = r.id) :
    (rooms.map g).countP (fun r => r.id == rid)
      = rooms.countP (fun r => r.id == rid) := by
  have hpg : ((fun r : Room => r.id == rid) ∘ g) = (fun r : Room => r.id == rid) := by
    funext r
    simp [Function.comp, hg r]
  rw [List.countP_map, hpg]

theorem sum_countId_update (iid rid : Nat) (f : Room → Room) :
    ∀ (rooms : List Room) (room : Room),
      rooms.find? (fun r => r.id == rid) = some room →
      rooms.countP (fun r => r.id == rid) = 1 →
      ((rooms.map (fun r => if r.id == rid then f r else r)).map
          (fun r => countId iid r.items)).sum + countId iid room.items
        = (rooms.map (fun r => countId iid r.items)).sum
            + countId iid (f room).items := by
  intro rooms
  induction rooms with
  | nil => intro room hf _; simp at hf
  | cons a t ih =>
    intro room hf hc
    by_cases ha : (a.id == rid) = true
    · rw [@List.find?_cons_of_pos _ (fun r => r.id == rid) a t ha] at hf
      have hra : room = a := (Option.some.inj hf).symm
      rw [List.countP_cons_of_pos (fun r => r.id == rid) t ha] at hc
      have ht0 : t.countP (fun r => r.id == rid) = 0 := by omega
      have htall := List.countP_eq_zero.mp ht0
      have hmap : t.map (fun r => if r.id == rid then f r else r) = t := by
        have := List.map_congr_left
          (f := fun r : Room => if r.id == rid then f r else r) (g := id) (l := t)
          (fun r hr => by simp [htall r hr])
        simpa using this
      subst hra
      simp only [List.map_cons, if_pos ha, hmap, List.sum_cons]
      omega
    · rw [@List.find?_cons_of_neg _ (fun r => r.id == rid) a t ha] at hf
      rw [List.countP_cons_of_neg (fun r => r.id == rid) t ha] at hc
      have hrec := ih room hf hc
      simp only [List.map_cons, if_neg ha, List.sum_cons]
      omega

theorem countId_append (iid : Nat) (l1 l2 : List Item) :
    countId iid (l1 ++ l2) = countId iid l1 + countId iid l2 :=
  List.countP_append _ l1 l2

theorem countId_singleton_self (it : Item) : countId it.id [it] = 1 := by
  simp [countId, List.countP_cons, beq_self_eq_true]

theorem countId_eq_zero {iid : Nat} {l : List Item} :
    countId iid l = 0 ↔ ∀ j ∈ l, ¬((j.id == iid) = true) :=
  List.countP_eq_zero

theorem countId_cons_of_pos {iid : Nat} {a : Item} (l : List Item)
    (h : (a.id == iid) = true) : countId iid (a :: l) = countId iid l + 1 :=
  List.countP_cons_of_pos _ l h

/-- C2 (amended): for a takeable item resolved by name in the current
room, provided no item already in the inventory shares the queried name
(the forced correction: with a same-named inventory item, `drop`’s
first-match name lookup can pick the other object, so a different item is
returned to the room), `take` followed by `drop` (the current room
unchanged in between) puts the very same item object — its description
unchanged — back into its original room’s Bag (up to Bag order, which is
unobservable in an unordered Bag), leaves the inventory as before, and
the item is held by exactly one Bag at all three instants. -/
theorem take_drop_roundtrip (w : World) (name : String) (rid : Nat) (room : Room) (obj : Item)
    (hroom1 : w.rooms.countP (fun r => r.id == rid) = 1)
    (h1 : w.gs.current_room = some rid)
    (h2 : w.getRoom rid = some room)
    (h3 : match_item name room.items = some obj)
    (h4 : obj.takeable = true)
    (h5 : ∀ j ∈ w.inventory, (j.name == name) = false)
    (h6 : w.bagCount obj.id = 1) :
    (take w name).1.bagCount obj.id = 1 ∧
    (drop (take w name).1 name).1.bagCount obj.id = 1 ∧
    (∃ room2, (drop (take w name).1 name).1.getRoom rid = some room2 ∧
      obj ∈ room2.items ∧ room2.items.Perm room.items) ∧
    (drop (take w name).1 name).1.inventory = w.inventory ∧
    (drop (take w name).1 name).1.gs = w.gs := by
  have h3f : room.items.find? (fun it => it.name == name) = some obj := h3
  have hobjmem : obj ∈ room.items := List.mem_of_find?_eq_some h3f
  have hobjname : (obj.name == name) = true :=
    @List.find?_some _ (fun it => it.name == name) obj room.items h3f
  have h2f : w.rooms.find? (fun r => r.id == rid) = some room := h2
  have hroommem : room ∈ w.rooms := List.mem_of_find?_eq_some h2f
  have hroomid : (room.id == rid) = true :=
    @List.find?_some _ (fun r => r.id == rid) room w.rooms h2f
  have hcr_pos : 0 < countId obj.id room.items :=
    List.countP_pos_iff.mpr ⟨obj, hobjmem, beq_self_eq_true obj.id⟩
  have hsum_ge : countId obj.id room.items
      ≤ (w.rooms.map (fun r => countId obj.id r.items)).sum :=
    List.single_le_sum (fun x _ => Nat.zero_le x) _ (List.mem_map_of_mem _ hroommem)
  have h6e : (w.rooms.map (fun r => countId obj.id r.items)).sum
      + countId obj.id w.inventory = 1 := h6
  have hinv0 : countId obj.id w.inventory = 0 := by omega
  have hS1 : (w.rooms.map (fun r => countId obj.id r.items)).sum = 1 := by omega
  have hcr1 : countId obj.id room.items = 1 := by omega
  have hinvnone : ∀ j ∈ w.inventory, ¬((j.id == obj.id) = true) :=
    countId_eq_zero.mp hinv0
  obtain ⟨a, l1, l2, hl1, hpa, hsplit, herase⟩ :=
    @List.exists_of_eraseP Item (fun it => it.id == obj.id) room.items obj
      hobjmem (beq_self_eq_true obj.id)
  have hl1count : countId obj.id l1 = 0 := countId_eq_zero.mpr hl1
  have hl2count : countId obj.id l2 = 0 := by
    have hx := hcr1
    rw [hsplit, countId_append, countId_cons_of_pos l2 hpa] at hx
    omega
  have haobj : a = obj := by
    have hmem2 : obj ∈ l1 ++ a :: l2 := hsplit ▸ hobjmem
    rcases List.mem_append.mp hmem2 with hin1 | hin2
    · exact absurd (beq_self_eq_true obj.id) (hl1 obj hin1)
    · rcases List.mem_cons.mp hin2 with heq | hin3
      · exact heq.symm
      · exact absurd (beq_self_eq_true obj.id) (countId_eq_zero.mp hl2count obj hin3)
  rw [haobj] at hsplit
  have htake1 : (take w name).1
      = { w with
          rooms := w.rooms.map (fun r =>
            if r.id == rid then { r with items := removeById obj.id r.items } else r),
          inventory := w.inventory ++ [obj] } := by
    simp [take, h1, h2, h3, h4, World.updateRoom]
  have herase_eq : removeById obj.id room.items = l1 ++ l2 := herase
  have herase_count : countId obj.id (removeById obj.id room.items) = 0 := by
    rw [herase_eq, countId_append]
    omega
  have hsumA := sum_countId_update obj.id rid
    (fun r => { r with items := removeById obj.id r.items }) w.rooms room h2f hroom1
  dsimp only at hsumA
  have hsumA0 : ((w.rooms.map (fun r =>
      if r.id == rid then { r with items := removeById obj.id r.items } else r)).map
        (fun r => countId obj.id r.items)).sum = 0 := by omega
  have hc1 : (take w name).1.bagCount obj.id = 1 := by
    rw [htake1]
    show ((w.rooms.map (fun r =>
        if r.id == rid then { r with items := removeById obj.id r.items } else r)).map
          (fun r => countId obj.id r.items)).sum
      + countId obj.id (w.inventory ++ [obj]) = 1
    rw [hsumA0, countId_append, countId_singleton_self]
    omega
  have hmatchA : match_item name (w.inventory ++ [obj]) = some obj := by
    unfold match_item
    rw [List.find?_append, List.find?_eq_none.mpr (fun j hj => by simp [h5 j hj]),
      @List.find?_cons_of_pos _ (fun it => it.name == name) obj [] hobjname]
    rfl
  have hrem : removeById obj.id (w.inventory ++ [obj]) = w.inventory := by
    unfold removeById
    rw [List.eraseP_append_right _ hinvnone,
      @List.eraseP_cons_of_pos _ obj [] (fun b => b.id == obj.id) (beq_self_eq_true obj.id)]
    simp
  have hdrop1 : (drop (take w name).1 name).1
      = { w with rooms := ((w.rooms.map (fun r =>
            if r.id == rid then { r with items := removeById obj.id r.items } else r)).map
              (fun r => if r.id == rid then { r with items := r.items ++ [obj] } else r)) } := by
    rw [htake1]
    simp [drop, hmatchA, h1, World.updateRoom, hrem]
  have hgE : ∀ r : Room, ((fun r : Room => if r.id == rid then
      { r with items := removeById obj.id r.items } else r) r).id = r.id := by
    intro r; dsimp only; split <;> rfl
  have hgA : ∀ r : Room, ((fun r : Room => if r.id == rid then
      { r with items := r.items ++ [obj] } else r) r).id = r.id := by
    intro r; dsimp only; split <;> rfl
  have hfindE : (w.rooms.map (fun r =>
      if r.id == rid then { r with items := removeById obj.id r.items } else r)).find?
        (fun r => r.id == rid)
      = some { room with items := removeById obj.id room.items } := by
    rw [find?_map_id_pres w.rooms rid _ hgE, h2f]
    simp only [Option.map]
    rw [if_pos hroomid]
  have hcountE : (w.rooms.map (fun r =>
      if r.id == rid then { r with items := removeById obj.id r.items } else r)).countP
        (fun r => r.id == rid) = 1 := by
    rw [countP_map_id_pres w.rooms rid _ hgE]
    exact hroom1
  have hsumB := sum_countId_update obj.id rid
    (fun r => { r with items := r.items ++ [obj] })
    (w.rooms.map (fun r =>
      if r.id == rid then { r with items := removeById obj.id r.items } else r))
    { room with items := removeById obj.id room.items } hfindE hcountE
  dsimp only at hsumB
  have hEA : countId obj.id (removeById obj.id room.items ++ [obj]) = 1 := by
    rw [countId_append, countId_singleton_self]
    omega
  have hc2 : (drop (take w name).1 name).1.bagCount obj.id = 1 := by
    rw [hdrop1]
    show (((w.rooms.map (fun r =>
        if r.id == rid then { r with items := removeById obj.id r.items } else r)).map
          (fun r => if r.id == rid then { r with items := r.items ++ [obj] } else r)).map
            (fun r => countId obj.id r.items)).sum
      + countId obj.id w.inventory = 1
    omega
  have hgetB : (drop (take w name).1 name).1.getRoom rid
      = some { room with items := removeById obj.id room.items ++ [obj] } := by
    rw [hdrop1]
    show ((w.rooms.map (fun r =>
        if r.id == rid then { r with items := removeById obj.id r.items } else r)).map
          (fun r => if r.id == rid then { r with items := r.items ++ [obj] } else r)).find?
            (fun r => r.id == rid)
      = some { room with items := removeById obj.id room.items ++ [obj] }
    rw [find?_map_id_pres _ rid _ hgA, hfindE]
    simp only [Option.map]
    rw [if_pos hroomid]
  have hperm : (removeById obj.id room.items ++ [obj]).Perm room.items := by
    rw [herase_eq, hsplit]
    exact (List.perm_append_singleton obj (l1 ++ l2)).trans List.perm_middle.symm
  refine ⟨hc1, hc2,
    ⟨{ room with items := removeById obj.id room.items ++ [obj] }, hgetB,
      List.mem_append_right _ (List.mem_singleton.mpr rfl), hperm⟩,
    by rw [hdrop1], by rw [hdrop1]⟩

theorem take_drop_roundtrip_witness :
    (take yardWorld "key").1.bagCount brassKey.id = 1 ∧
    (drop (take yardWorld "key").1 "key").1.bagCount brassKey.id = 1 ∧
    (∃ room2, (drop (take yardWorld "key").1 "key").1.getRoom 0 = some room2 ∧
      brassKey ∈ room2.items ∧
      room2.items.Perm ({ Room.new 0 "Yard." with items := [brassKey] } : Room).items) ∧
    (drop (take yardWorld "key").1 "key").1.inventory = yardWorld.inventory ∧
    (drop (take yardWorld "key").1 "key").1.gs = yardWorld.gs :=
  take_drop_roundtrip yardWorld "key" 0 { Room.new 0 "Yard." with items := [brassKey] }
    brassKey (by decide) rfl (by decide) (by decide) rfl (by decide) (by decide)

/-- The shiny key object (id 1) of the C2 counterexample. -/
def shinyKey : Item := Item.new 1 "key" "A shiny key."

/-- C2 counterexample world: the shiny key (id 1) lies in the den, while
the inventory already holds the distinct rusty key (id 2), which shares
the display name "key". -/
def dupKeyWorld : World :=
  { rooms := [{ Room.new 0 "Den." with items := [shinyKey] }], inventory := [impostorKey],
    gs := { GameState.initState with current_room := some 0 } }

/-- C2 counterexample: `take key` takes the shiny key out of the den, but
the following `drop key` resolves "key" to the rusty key already in the
inventory; the den ends up with the rusty key (whose description
differs), while the taken shiny key stays in the inventory — the round
trip does not restore the taken item to its room. -/
theorem take_drop_counterexample :
    ((drop (take dupKeyWorld "key").1 "key").1.getRoom 0).map (fun r => r.items)
      = some [impostorKey] ∧
    shinyKey ∈ (drop (take dupKeyWorld "key").1 "key").1.inventory ∧
    impostorKey ≠ shinyKey ∧ impostorKey.description ≠ shinyKey.description := by
  refine ⟨by decide, by decide, by decide, by decide⟩
